import Mathlib

/-!
Shallow embedding of the fire_app preprocessing pipeline
(`src/utils/preprocessing.py` and the formatting helpers of `src/app.py`).

Modelling conventions:
* A pandas cell is `Option Val`: `none` is NaN/missing, `Val.num q` a numeric
  cell (rationals stand for Python floats; all constants involved are exactly
  representable), `Val.str s` a non-numeric string cell.
* A dataframe is a `Table`: per-table column-presence flags (pandas columns
  exist or not for the whole frame) plus a list of rows whose cells for absent
  columns are `none`.
* Decoded Gregorian dates are epoch-day numbers (`ℤ`, days since 1970-01-01,
  UTC); `julian_to_date` floors `j - 2440587.5` and fails outside Python's
  `datetime` range (years 1..9999), returning `none` as the caught-exception
  path does.
* Python exceptions are `Except String`: `convert_acres_to_m2` on a string
  cell raises `TypeError` (no internal handler), which `preprocess_data`'s
  `try/except` absorbs, returning the dataframe as mutated so far.
-/

namespace FireApp

inductive Val where
  | num (q : ℚ)
  | str (s : String)
  deriving DecidableEq, Repr

abbrev Cell := Option Val

/-- A raw record as read from the primary CSV (only the columns the pipeline
touches; further columns pass through unused). -/
structure RawRow where
  discovery : Cell
  cont : Cell
  fireSize : Cell
  state : Option String
  deriving DecidableEq, Repr

/-- A raw dataframe: column-presence flags plus rows. -/
structure RawTable where
  hasDiscovery : Bool
  hasCont : Bool
  hasFireSize : Bool
  hasState : Bool
  rows : List RawRow
  deriving DecidableEq, Repr

/-- An enriched record: raw cells plus every derived field of the pipeline. -/
structure Row where
  discovery : Cell
  cont : Cell
  fireSize : Cell
  state : Option String
  stateName : Option String
  dategregDiscovery : Option ℤ
  dategregCont : Option ℤ
  durationDays : Option ℤ
  month : Option ℕ
  day : Option ℕ
  dayOfWeek : Option ℕ
  season : Option String
  fireSizeM2 : Option ℚ
  fireSizeHectares : Option ℚ
  deriving DecidableEq, Repr

/-- An enriched dataframe: presence flags for raw and derived columns, rows. -/
structure Table where
  hasDiscovery : Bool
  hasCont : Bool
  hasFireSize : Bool
  hasState : Bool
  hasStateName : Bool
  hasDategregDiscovery : Bool
  hasDategregCont : Bool
  hasDuration : Bool
  hasMonth : Bool
  hasDay : Bool
  hasDow : Bool
  hasSeason : Bool
  hasM2 : Bool
  hasHectares : Bool
  rows : List Row
  deriving DecidableEq, Repr

/-- `pd.DataFrame()`: the empty frame returned by the orchestrator's handler. -/
def Table.empty : Table :=
  ⟨false, false, false, false, false, false, false, false,
   false, false, false, false, false, false, []⟩

/-- Lift one raw record into the enriched shape with every derived cell
`none`. -/
def toRow (r : RawRow) : Row :=
  { discovery := r.discovery, cont := r.cont, fireSize := r.fireSize,
    state := r.state, stateName := none, dategregDiscovery := none,
    dategregCont := none, durationDays := none, month := none, day := none,
    dayOfWeek := none, season := none, fireSizeM2 := none,
    fireSizeHectares := none }

/-- Lift a raw dataframe into the enriched shape: every derived column is
absent and every derived cell is `none`. -/
def RawTable.toTable (t : RawTable) : Table where
  hasDiscovery := t.hasDiscovery
  hasCont := t.hasCont
  hasFireSize := t.hasFireSize
  hasState := t.hasState
  hasStateName := false
  hasDategregDiscovery := false
  hasDategregCont := false
  hasDuration := false
  hasMonth := false
  hasDay := false
  hasDow := false
  hasSeason := false
  hasM2 := false
  hasHectares := false
  rows := t.rows.map toRow

/-! ### State reference table (`load_state_names`, the two dictionaries) -/

abbrev MappingList := List (String × String)

/-- Python `dict` lookup over a key/value list built with `dict(zip(..))`:
duplicate keys are last-write-wins. -/
def dlookup (m : MappingList) (k : String) : Option String :=
  m.reverse.lookup k

/-- `load_state_names`: reads the reference CSV into `dict(zip(codes, names))`;
on any exception returns `{}` after a non-fatal `st.error`.  The argument is
the outcome of reading the file. -/
def load_state_names (src : Except String MappingList) : MappingList :=
  match src with
  | .ok m => m
  | .error _ => []

/-- `{v: k for k, v in state_mapping.items()}` (the inverse mapping). -/
def invertMapping (m : MappingList) : MappingList :=
  m.map fun p => (p.2, p.1)

/-! ### Per-field functions (`julian_to_date`, `calculate_duration`,
`convert_acres_to_m2`) -/

/-- Lower bound of `datetime.fromtimestamp`'s range: epoch day of 0001-01-01. -/
def minEpochDay : ℤ := -719162

/-- Upper bound of `datetime.fromtimestamp`'s range: epoch day of 9999-12-31. -/
def maxEpochDay : ℤ := 2932896

/-- `julian_to_date` followed by `.date()`: NaN propagates, a non-numeric
string makes `float()` raise (caught, `None`), a numeric Julian day `j` maps
to epoch day `⌊j - 2440587.5⌋`, with out-of-range timestamps raising inside
`datetime.fromtimestamp` (caught, `None`). -/
def julian_to_date (v : Cell) : Option ℤ :=
  match v with
  | none => none
  | some (.str _) => none
  | some (.num j) =>
      let day : ℤ := ⌊j - 2440587.5⌋
      if day < minEpochDay ∨ maxEpochDay < day then none else some day

/-- Lowest midnight date `pd.to_datetime` accepts: 1677-09-22 (midnight of
1677-09-21 lies before `pd.Timestamp.min`, which is 1677-09-21 00:12:43). -/
def minPandasDay : ℤ := -106751

/-- Highest midnight date `pd.to_datetime` accepts: 2262-04-11
(`pd.Timestamp.max` is 2262-04-11 23:47:16). -/
def maxPandasDay : ℤ := 106751

/-- Does this decoded date make `pd.to_datetime` raise `OutOfBoundsDatetime`?
`None` becomes NaT and never raises; a date outside pandas' nanosecond
`Timestamp` range does, even though `datetime` (years 1..9999) accepted it. -/
def outOfPandasRange (o : Option ℤ) : Bool :=
  match o with
  | none => false
  | some d => decide (d < minPandasDay) || decide (maxPandasDay < d)

/-- Fixed text of the exception raised by `pd.to_datetime`. -/
def toDatetimeError : String := "OutOfBoundsDatetime"

/-- `calculate_duration`: `None` when either date is NaT, else
`(cont_date - discovery_date).days`; both dates are midnight-normalised so the
timedelta's `.days` is the plain difference of epoch days. -/
def calculate_duration (discovery_date cont_date : Option ℤ) : Option ℤ :=
  match discovery_date, cont_date with
  | some d, some c => some (c - d)
  | _, _ => none

/-- The two `df.loc` sanitation writes: durations `< 0` or `> 365` are reset
to `None`. -/
def clean_duration (o : Option ℤ) : Option ℤ :=
  match o with
  | none => none
  | some n => if n < 0 then none else if 365 < n then none else some n

/-- Fixed text of the `TypeError` raised by `str * float`. -/
def areaTypeError : String := "TypeError: cannot multiply sequence by float"

/-- `convert_acres_to_m2`: NaN propagates; a numeric value is scaled by
4046.86; a string cell raises `TypeError` (the function has no handler). -/
def convert_acres_to_m2 (v : Cell) : Except String (Option ℚ) :=
  match v with
  | none => .ok none
  | some (.num a) => .ok (some (a * 4046.86))
  | some (.str _) => .error areaTypeError

/-! ### Calendar fields (`dt.month`, `dt.day`, `dt.dayofweek`) -/

/-- Civil-calendar decomposition of an epoch-day number into
(year, month, day-of-month), Gregorian calendar. -/
def civilFromDays (z : ℤ) : ℤ × ℕ × ℕ :=
  let a : ℤ := z + 719468
  let era : ℤ := a / 146097
  let doe : ℕ := (a % 146097).toNat
  let yoe : ℕ := (doe - doe / 1460 + doe / 36524 - doe / 146096) / 365
  let doy : ℕ := doe - (365 * yoe + yoe / 4 - yoe / 100)
  let mp : ℕ := (5 * doy + 2) / 153
  let d : ℕ := doy - (153 * mp + 2) / 5 + 1
  let m : ℕ := if mp < 10 then mp + 3 else mp - 9
  let y : ℤ := era * 400 + yoe + (if m ≤ 2 then 1 else 0)
  (y, m, d)

/-- `dt.month` of a midnight date stored as an epoch day. -/
def monthOfDay (z : ℤ) : ℕ := (civilFromDays z).2.1

/-- `dt.day` of a midnight date stored as an epoch day. -/
def dayOfDay (z : ℤ) : ℕ := (civilFromDays z).2.2

/-- `dt.dayofweek` (Monday = 0); 1970-01-01 was a Thursday. -/
def dowOfDay (z : ℤ) : ℕ := ((z + 3) % 7).toNat

/-- The season dictionary passed to `df['MONTH'].map({...})`: keys not present
map to NaN. -/
def seasonMap (m : ℕ) : Option String :=
  if m = 12 ∨ m = 1 ∨ m = 2 then some "Winter"
  else if m = 3 ∨ m = 4 ∨ m = 5 then some "Spring"
  else if m = 6 ∨ m = 7 ∨ m = 8 then some "Summer"
  else if m = 9 ∨ m = 10 ∨ m = 11 then some "Fall"
  else none

/-! ### The steps of `preprocess_data` -/

/-- The row-wise body of the `DISCOVERY_DATE` iteration of step 1. -/
def dategregDiscoveryRow (r : Row) : Row :=
  { r with dategregDiscovery := julian_to_date r.discovery }

/-- The row-wise body of the `CONT_DATE` iteration of step 1. -/
def dategregContRow (r : Row) : Row :=
  { r with dategregCont := julian_to_date r.cont }

/-- Step 1, the loop over `['DISCOVERY_DATE', 'CONT_DATE']`.  Each iteration
on a present column first assigns the `DATEGREG_*` column of decoded
`datetime.date` objects (which never raises: `julian_to_date` catches
internally) and then runs `pd.to_datetime` over it, which raises
`OutOfBoundsDatetime` as soon as any decoded date falls outside pandas'
`Timestamp` range — aborting the loop (and, via `preprocess_data`'s `except`,
all later steps) with the column as assigned so far. -/
def step_dates (t : Table) : Table × Option String :=
  let p1 : Table × Option String :=
    if t.hasDiscovery then
      let t1 := { t with hasDategregDiscovery := true,
                         rows := t.rows.map dategregDiscoveryRow }
      if t1.rows.any fun r => outOfPandasRange r.dategregDiscovery then
        (t1, some toDatetimeError)
      else (t1, none)
    else (t, none)
  match p1 with
  | (t1, some e) => (t1, some e)
  | (t1, none) =>
      if t1.hasCont then
        let t2 := { t1 with hasDategregCont := true,
                            rows := t1.rows.map dategregContRow }
        if t2.rows.any fun r => outOfPandasRange r.dategregCont then
          (t2, some toDatetimeError)
        else (t2, none)
      else (t1, none)

/-- The row-wise lambda of step 2 composed with the two `df.loc` sanitation
writes. -/
def durationRow (r : Row) : Row :=
  { r with durationDays := clean_duration (calculate_duration r.dategregDiscovery r.dategregCont) }

/-- Step 2: when both `DATEGREG_` columns exist, the row-wise
`calculate_duration` followed by the two `df.loc` sanitation writes. -/
def step_duration (t : Table) : Table :=
  if t.hasDategregDiscovery && t.hasDategregCont then
    { t with hasDuration := true, rows := t.rows.map durationRow }
  else t

/-- The row-wise effect of step 3 (`dt.month`, `dt.day`, `dt.dayofweek`, then
`SEASON` from the freshly written `MONTH`). -/
def temporalRow (r : Row) : Row :=
  let mo := r.dategregDiscovery.map monthOfDay
  { r with month := mo,
           day := r.dategregDiscovery.map dayOfDay,
           dayOfWeek := r.dategregDiscovery.map dowOfDay,
           season := mo.bind seasonMap }

/-- Step 3: `MONTH`, `DAY`, `DAY_OF_WEEK` from `DATEGREG_DISCOVERY` and
`DISCOVERY_SEASON` from the freshly written `MONTH` column. -/
def step_temporal (t : Table) : Table :=
  if t.hasDategregDiscovery then
    { t with hasMonth := true, hasDay := true, hasDow := true, hasSeason := true,
             rows := t.rows.map temporalRow }
  else t

/-- The row-wise body of `df['FIRE_SIZE'].apply(convert_acres_to_m2)` plus the
subsequent `/ 10000` hectare column (which never raises). -/
def rowArea (r : Row) : Except String Row :=
  match convert_acres_to_m2 r.fireSize with
  | .error e => .error e
  | .ok m2 =>
      .ok { r with fireSizeM2 := m2, fireSizeHectares := m2.map (· / 10000) }

/-- `apply` over the whole column: the first raising cell aborts the step
before either new column is assigned. -/
def areaRowsE : List Row → Except String (List Row)
  | [] => .ok []
  | r :: rs =>
      match rowArea r with
      | .error e => .error e
      | .ok r' =>
          match areaRowsE rs with
          | .error e => .error e
          | .ok rs' => .ok (r' :: rs')

/-- Step 4: the area conversions, attempted only when `FIRE_SIZE` exists; the
whole step raises if any cell raises. -/
def step_area (t : Table) : Except String Table :=
  if t.hasFireSize then
    match areaRowsE t.rows with
    | .error e => .error e
    | .ok rows' => .ok { t with hasM2 := true, hasHectares := true, rows := rows' }
  else .ok t

/-- `preprocess_data`: steps 1-4 inside one `try`.  A raise in step 1
(`pd.to_datetime` out of bounds) or step 4 (`convert_acres_to_m2` on a string
cell) is caught by the `except`, which returns `df` — the same object,
already mutated in place by everything completed before the raise.  Steps 2
and 3 cannot raise. -/
def preprocess_data (df : Table) : Table :=
  match step_dates df with
  | (d1, some _) => d1
  | (d1, none) =>
      let d2 := step_duration d1
      let d3 := step_temporal d2
      match step_area d3 with
      | .ok d4 => d4
      | .error _ => d3

/-- The row-wise effect of `df['STATE'].map(code_to_name)` followed by
`.fillna(df['STATE'])`. -/
def stateNameRow (m : MappingList) (r : Row) : Row :=
  { r with stateName :=
      match r.state with
      | some c => some ((dlookup m c).getD c)
      | none => none }

/-- Step 4 of `load_and_preprocess_data`: `df['STATE'].map(code_to_name)` then
`.fillna(df['STATE'])` — run only when the `STATE` column exists *and* the
dictionary is truthy (non-empty). -/
def addStateName (t : Table) (m : MappingList) : Table :=
  { t with hasStateName := true, rows := t.rows.map (stateNameRow m) }

/-- `load_and_preprocess_data`: the orchestrator.  `src` is the outcome of
`pd.read_csv(file_path)` (the only statement in its `try` that can raise;
`load_state_names` and `preprocess_data` both catch internally), `ref` the
outcome of reading the state-reference CSV.  On a raise it returns
`(pd.DataFrame(), {}, {})`. -/
def load_and_preprocess_data (src : Except String RawTable)
    (ref : Except String MappingList) : Table × MappingList × MappingList :=
  match src with
  | .error _ => (Table.empty, [], [])
  | .ok raw =>
      let code_to_name := load_state_names ref
      let name_to_code := invertMapping code_to_name
      let df0 := raw.toTable
      let df1 :=
        if raw.hasState && !code_to_name.isEmpty then addStateName df0 code_to_name
        else df0
      (preprocess_data df1, code_to_name, name_to_code)

/-! ### Display formatting (`src/app.py`) -/

/-- The outcome of `format_area`: either the `"N/A"` sentinel or a rendered
number — scaled value, decimal places, thousands grouping, unit suffix. -/
inductive AreaDisplay where
  | na
  | disp (value : ℚ) (decimals : ℕ) (grouped : Bool) (suffix : String)
  deriving DecidableEq, Repr

/-- `format_area`: the three-tier adaptive display formatter. -/
def format_area (area_m2 : Option ℚ) : AreaDisplay :=
  match area_m2 with
  | none => .na
  | some a =>
      if a ≥ 1000000 then .disp (a / 1000000) 2 false "km²"
      else if a ≥ 10000 then .disp (a / 10000) 1 false "ha"
      else .disp a 0 true "m²"

/-- `format_area_value`: the bare numeric companion; a NaN input returns the
number `0`. -/
def format_area_value (area_m2 : Option ℚ) : ℚ :=
  match area_m2 with
  | none => 0
  | some a =>
      if a ≥ 1000000 then a / 1000000
      else if a ≥ 10000 then a / 10000
      else a

/-- `get_area_unit`: the unit-suffix companion. -/
def get_area_unit (area_m2 : Option ℚ) : String :=
  match area_m2 with
  | none => ""
  | some a =>
      if a ≥ 1000000 then "km²"
      else if a ≥ 10000 then "ha"
      else "m²"

/-! ### Closed form of one pipeline run

`enrichRow`/`pipelineSpec` give the pipeline's output row-by-row; the lemma
`pipeline_eq` proves them equal to the step-by-step orchestrator above, so
claims can be read off one per-row function. -/

/-- Does this `FIRE_SIZE` cell make `convert_acres_to_m2` raise? -/
def badSize (c : Cell) : Bool :=
  match c with
  | some (.str _) => true
  | _ => false

/-- Value of `convert_acres_to_m2` on the non-raising cells. -/
def convertOpt (c : Cell) : Option ℚ :=
  match c with
  | some (.num a) => some (a * 4046.86)
  | _ => none

/-- Whether the area step runs to completion on this input. -/
def areaOK (raw : RawTable) : Bool :=
  !(raw.rows.any fun r => badSize r.fireSize)

/-- The whole pipeline, per raw record, given the raw table's column flags,
the code→name mapping and whether the area step completes. -/
def enrichRow (hasD hasC hasF hasS : Bool) (m : MappingList) (aOK : Bool)
    (r : RawRow) : Row :=
  let dg := if hasD then julian_to_date r.discovery else none
  let dc := if hasC then julian_to_date r.cont else none
  let mo := dg.map monthOfDay
  { discovery := r.discovery
    cont := r.cont
    fireSize := r.fireSize
    state := r.state
    stateName :=
      if hasS && !m.isEmpty then
        match r.state with
        | some c => some ((dlookup m c).getD c)
        | none => none
      else none
    dategregDiscovery := dg
    dategregCont := dc
    durationDays := clean_duration (calculate_duration dg dc)
    month := mo
    day := dg.map dayOfDay
    dayOfWeek := dg.map dowOfDay
    season := mo.bind seasonMap
    fireSizeM2 := if hasF && aOK then convertOpt r.fireSize else none
    fireSizeHectares :=
      if hasF && aOK then (convertOpt r.fireSize).map (· / 10000) else none }

/-- Does the `DISCOVERY_DATE` iteration of step 1 raise on this input? -/
def discoveryDatesRaise (raw : RawTable) : Bool :=
  raw.hasDiscovery &&
    raw.rows.any fun r => outOfPandasRange (julian_to_date r.discovery)

/-- Does the `CONT_DATE` iteration of step 1 raise (when reached)? -/
def contDatesRaise (raw : RawTable) : Bool :=
  raw.hasCont &&
    raw.rows.any fun r => outOfPandasRange (julian_to_date r.cont)

/-- Does step 1 raise somewhere on this input? -/
def datesRaise (raw : RawTable) : Bool :=
  discoveryDatesRaise raw || contDatesRaise raw

/-- Removing the `CONT_DATE` column from the primary CSV before loading. -/
def dropContColumn (raw : RawTable) : RawTable :=
  { raw with hasCont := false,
             rows := raw.rows.map fun r => { r with cont := none } }

/-- One row whose discovery date (Julian 2459015.5 = 2020-06-15) decodes fine
but whose containment date (Julian 2590587.5, epoch day 150000, year 2380)
decodes inside Python's `datetime` range yet outside pandas' `Timestamp`
range, so `pd.to_datetime` raises on the `CONT_DATE` column. -/
def contOutOfRangeRaw : RawTable :=
  ⟨true, true, true, false,
    [⟨some (.num 2459015.5), some (.num 2590587.5), some (.num 100), none⟩]⟩

/-- The row-wise effect of a *successful* area step. -/
def areaRowOk (r : Row) : Row :=
  { r with fireSizeM2 := convertOpt r.fireSize,
           fireSizeHectares := (convertOpt r.fireSize).map (· / 10000) }

/-- The state-name stage as one conditional row function. -/
def preRow (hS : Bool) (m : MappingList) (r : Row) : Row :=
  if hS && !m.isEmpty then stateNameRow m r else r

/-- Step 1 alone as one conditional row function. -/
def dateRow (hD hC : Bool) (r : Row) : Row :=
  let r1 := if hD then dategregDiscoveryRow r else r
  if hC then dategregContRow r1 else r1

/-- Steps 1-3 as one conditional row function. -/
def postRow (hD hC : Bool) (r : Row) : Row :=
  let r1 := if hD then dategregDiscoveryRow r else r
  let r2 := if hC then dategregContRow r1 else r1
  let r3 := if hD && hC then durationRow r2 else r2
  if hD then temporalRow r3 else r3

/-- Closed form of the table produced by one successful load.  Three regimes:
a raise in the `DISCOVERY_DATE` conversion leaves only the state name and the
(just assigned) `DATEGREG_DISCOVERY` column; a raise in the `CONT_DATE`
conversion additionally leaves `DATEGREG_CONT`; otherwise every derivation
runs, with the area columns present exactly when the area step succeeds. -/
def pipelineSpec (raw : RawTable) (m : MappingList) : Table :=
  if discoveryDatesRaise raw then
    { hasDiscovery := raw.hasDiscovery, hasCont := raw.hasCont,
      hasFireSize := raw.hasFireSize, hasState := raw.hasState,
      hasStateName := raw.hasState && !m.isEmpty,
      hasDategregDiscovery := true, hasDategregCont := false,
      hasDuration := false, hasMonth := false, hasDay := false,
      hasDow := false, hasSeason := false, hasM2 := false,
      hasHectares := false,
      rows := raw.rows.map fun r =>
        dategregDiscoveryRow (preRow raw.hasState m (toRow r)) }
  else if contDatesRaise raw then
    { hasDiscovery := raw.hasDiscovery, hasCont := raw.hasCont,
      hasFireSize := raw.hasFireSize, hasState := raw.hasState,
      hasStateName := raw.hasState && !m.isEmpty,
      hasDategregDiscovery := raw.hasDiscovery, hasDategregCont := true,
      hasDuration := false, hasMonth := false, hasDay := false,
      hasDow := false, hasSeason := false, hasM2 := false,
      hasHectares := false,
      rows := raw.rows.map fun r =>
        dateRow raw.hasDiscovery true (preRow raw.hasState m (toRow r)) }
  else
    { hasDiscovery := raw.hasDiscovery, hasCont := raw.hasCont,
      hasFireSize := raw.hasFireSize, hasState := raw.hasState,
      hasStateName := raw.hasState && !m.isEmpty,
      hasDategregDiscovery := raw.hasDiscovery,
      hasDategregCont := raw.hasCont,
      hasDuration := raw.hasDiscovery && raw.hasCont,
      hasMonth := raw.hasDiscovery, hasDay := raw.hasDiscovery,
      hasDow := raw.hasDiscovery, hasSeason := raw.hasDiscovery,
      hasM2 := raw.hasFireSize && areaOK raw,
      hasHectares := raw.hasFireSize && areaOK raw,
      rows := raw.rows.map
        (enrichRow raw.hasDiscovery raw.hasCont raw.hasFireSize raw.hasState m
          (areaOK raw)) }

lemma convert_ok_of_not_bad (c : Cell) (h : badSize c = false) :
    convert_acres_to_m2 c = .ok (convertOpt c) := by
  cases c with
  | none => rfl
  | some v =>
      cases v with
      | num q => rfl
      | str s => simp [badSize] at h

lemma rowArea_of_not_bad (r : Row) (h : badSize r.fireSize = false) :
    rowArea r = .ok (areaRowOk r) := by
  unfold rowArea areaRowOk
  rw [convert_ok_of_not_bad _ h]

lemma areaRowsE_ok (l : List Row) (h : (l.any fun r => badSize r.fireSize) = false) :
    areaRowsE l = .ok (l.map areaRowOk) := by
  induction l with
  | nil => rfl
  | cons r rs ih =>
      have h1 : badSize r.fireSize = false := by
        simpa using (List.any_eq_false.1 h) r (List.mem_cons_self r rs)
      have h2 : (rs.any fun r => badSize r.fireSize) = false := by
        simpa [List.any_cons, h1] using h
      simp only [areaRowsE, rowArea_of_not_bad r h1, ih h2, List.map_cons]

lemma areaRowsE_err (l : List Row) (h : l.any (fun r => badSize r.fireSize) = true) :
    areaRowsE l = .error areaTypeError := by
  induction l with
  | nil => simp at h
  | cons r rs ih =>
      by_cases hb : badSize r.fireSize = true
      · cases hc : r.fireSize with
        | none => simp [badSize, hc] at hb
        | some v =>
            cases v with
            | num q => simp [badSize, hc] at hb
            | str s => simp [areaRowsE, rowArea, convert_acres_to_m2, hc]
      · have hb' : badSize r.fireSize = false := by simpa using hb
        have hrs : rs.any (fun r => badSize r.fireSize) = true := by
          simpa [List.any_cons, hb'] using h
        simp only [areaRowsE, rowArea_of_not_bad r hb', ih hrs]

lemma preRow_fireSize (hS : Bool) (m : MappingList) (r : Row) :
    (preRow hS m r).fireSize = r.fireSize := by
  unfold preRow
  split <;> rfl

lemma preRow_discovery (hS : Bool) (m : MappingList) (r : Row) :
    (preRow hS m r).discovery = r.discovery := by
  unfold preRow
  split <;> rfl

lemma preRow_cont (hS : Bool) (m : MappingList) (r : Row) :
    (preRow hS m r).cont = r.cont := by
  unfold preRow
  split <;> rfl

lemma toRow_discovery (r : RawRow) : (toRow r).discovery = r.discovery := rfl

lemma toRow_cont (r : RawRow) : (toRow r).cont = r.cont := rfl

lemma map_dateRow_ff (l : List Row) : l.map (dateRow false false) = l := by
  induction l with
  | nil => rfl
  | cons a t ih => simp [dateRow, ih]

lemma any_discovery_preRows (hS : Bool) (m : MappingList) (l : List RawRow) :
    ((l.map fun r => preRow hS m (toRow r)).any
        fun r => outOfPandasRange (julian_to_date r.discovery)) =
      l.any fun r => outOfPandasRange (julian_to_date r.discovery) := by
  induction l with
  | nil => rfl
  | cons r rs ih => simp [List.any_cons, ih, preRow_discovery, toRow_discovery]

lemma any_cont_preRows (hS : Bool) (m : MappingList) (l : List RawRow) :
    ((l.map fun r => preRow hS m (toRow r)).any
        fun r => outOfPandasRange (julian_to_date r.cont)) =
      l.any fun r => outOfPandasRange (julian_to_date r.cont) := by
  induction l with
  | nil => rfl
  | cons r rs ih => simp [List.any_cons, ih, preRow_cont, toRow_cont]

lemma any_badSize_preRows (hS : Bool) (m : MappingList) (l : List RawRow) :
    ((l.map fun r => preRow hS m (toRow r)).any
        fun r => badSize r.fireSize) =
      l.any fun r => badSize r.fireSize := by
  have tfs : ∀ x : RawRow, (toRow x).fireSize = x.fireSize := fun x => rfl
  induction l with
  | nil => rfl
  | cons r rs ih => simp [List.any_cons, ih, preRow_fireSize, tfs]

lemma postRow_fireSize (hD hC : Bool) (r : Row) :
    (postRow hD hC r).fireSize = r.fireSize := by
  unfold postRow
  cases hD <;> cases hC <;> rfl

lemma dategregDiscoveryRow_fireSize (r : Row) :
    (dategregDiscoveryRow r).fireSize = r.fireSize := rfl

lemma dategregContRow_fireSize (r : Row) :
    (dategregContRow r).fireSize = r.fireSize := rfl

lemma durationRow_fireSize (r : Row) :
    (durationRow r).fireSize = r.fireSize := rfl

lemma temporalRow_fireSize (r : Row) :
    (temporalRow r).fireSize = r.fireSize := rfl

lemma stateNameRow_fireSize (m : MappingList) (r : Row) :
    (stateNameRow m r).fireSize = r.fireSize := rfl

lemma toRow_fireSize (r : RawRow) : (toRow r).fireSize = r.fireSize := rfl

/-- `preRow` in structure-update normal form (so projections reduce). -/
lemma preRow_eq (hS : Bool) (m : MappingList) (r : Row) :
    preRow hS m r =
      { r with stateName :=
          if hS && !m.isEmpty then
            match r.state with
            | some c => some ((dlookup m c).getD c)
            | none => none
          else r.stateName } := by
  unfold preRow stateNameRow
  split <;> simp

/-- `dateRow` in structure-update normal form. -/
lemma dateRow_eq (hD hC : Bool) (r : Row) :
    dateRow hD hC r =
      { r with
        dategregDiscovery :=
          if hD then julian_to_date r.discovery else r.dategregDiscovery,
        dategregCont :=
          if hC then julian_to_date r.cont else r.dategregCont } := by
  unfold dateRow dategregDiscoveryRow dategregContRow
  cases hD <;> cases hC <;> simp

/-- Step 1 in closed form: the `DISCOVERY_DATE` conversion raises, or else the
`CONT_DATE` conversion raises, or both columns convert. -/
lemma step_dates_char (hD hC hF hS sn : Bool) (rows0 : List Row) :
    step_dates
        { hasDiscovery := hD, hasCont := hC, hasFireSize := hF, hasState := hS,
          hasStateName := sn, hasDategregDiscovery := false,
          hasDategregCont := false, hasDuration := false, hasMonth := false,
          hasDay := false, hasDow := false, hasSeason := false, hasM2 := false,
          hasHectares := false, rows := rows0 } =
      (if hD && rows0.any fun r => outOfPandasRange (julian_to_date r.discovery) then
        ({ hasDiscovery := hD, hasCont := hC, hasFireSize := hF,
           hasState := hS, hasStateName := sn, hasDategregDiscovery := true,
           hasDategregCont := false, hasDuration := false, hasMonth := false,
           hasDay := false, hasDow := false, hasSeason := false,
           hasM2 := false, hasHectares := false,
           rows := rows0.map dategregDiscoveryRow }, some toDatetimeError)
      else if hC && rows0.any fun r => outOfPandasRange (julian_to_date r.cont) then
        ({ hasDiscovery := hD, hasCont := hC, hasFireSize := hF,
           hasState := hS, hasStateName := sn, hasDategregDiscovery := hD,
           hasDategregCont := true, hasDuration := false, hasMonth := false,
           hasDay := false, hasDow := false, hasSeason := false,
           hasM2 := false, hasHectares := false,
           rows := rows0.map (dateRow hD true) }, some toDatetimeError)
      else
        ({ hasDiscovery := hD, hasCont := hC, hasFireSize := hF,
           hasState := hS, hasStateName := sn, hasDategregDiscovery := hD,
           hasDategregCont := hC, hasDuration := false, hasMonth := false,
           hasDay := false, hasDow := false, hasSeason := false,
           hasM2 := false, hasHectares := false,
           rows := rows0.map (dateRow hD hC) }, none)) := by
  have hd : ∀ l : List Row,
      ((l.map dategregDiscoveryRow).any
          fun r => outOfPandasRange r.dategregDiscovery) =
        l.any fun r => outOfPandasRange (julian_to_date r.discovery) := by
    intro l
    induction l with
    | nil => rfl
    | cons a t ih => simp [List.any_cons, ih, dategregDiscoveryRow]
  have hc1 : ∀ l : List Row,
      ((l.map dategregContRow).any fun r => outOfPandasRange r.dategregCont) =
        l.any fun r => outOfPandasRange (julian_to_date r.cont) := by
    intro l
    induction l with
    | nil => rfl
    | cons a t ih => simp [List.any_cons, ih, dategregContRow]
  have hc2 : ∀ l : List Row,
      ((l.map dategregDiscoveryRow).any
          fun r => outOfPandasRange (julian_to_date r.cont)) =
        l.any fun r => outOfPandasRange (julian_to_date r.cont) := by
    intro l
    induction l with
    | nil => rfl
    | cons a t ih => simp [List.any_cons, ih, dategregDiscoveryRow]
  cases hD <;> cases hC <;>
    by_cases hA :
        (rows0.any fun r => outOfPandasRange (julian_to_date r.discovery))
          = true <;>
      by_cases hB :
          (rows0.any fun r => outOfPandasRange (julian_to_date r.cont))
            = true <;>
        simp [step_dates, hd, hc1, hc2, map_dateRow_ff, hA, hB, List.map_map,
          Function.comp_def, dateRow, dategregDiscoveryRow, dategregContRow]

/-- `preprocess_data` when the `DISCOVERY_DATE` conversion raises: only that
column was added when the `except` fires. -/
lemma preprocess_char_discRaise (hD hC hF hS sn : Bool) (rows0 : List Row)
    (h : (hD && rows0.any fun r =>
        outOfPandasRange (julian_to_date r.discovery)) = true) :
    preprocess_data
        { hasDiscovery := hD, hasCont := hC, hasFireSize := hF, hasState := hS,
          hasStateName := sn, hasDategregDiscovery := false,
          hasDategregCont := false, hasDuration := false, hasMonth := false,
          hasDay := false, hasDow := false, hasSeason := false, hasM2 := false,
          hasHectares := false, rows := rows0 } =
      { hasDiscovery := hD, hasCont := hC, hasFireSize := hF, hasState := hS,
        hasStateName := sn, hasDategregDiscovery := true,
        hasDategregCont := false, hasDuration := false, hasMonth := false,
        hasDay := false, hasDow := false, hasSeason := false, hasM2 := false,
        hasHectares := false, rows := rows0.map dategregDiscoveryRow } := by
  unfold preprocess_data
  rw [step_dates_char, if_pos h]

/-- `preprocess_data` when the `CONT_DATE` conversion raises: both date
columns were added, nothing later. -/
lemma preprocess_char_contRaise (hD hC hF hS sn : Bool) (rows0 : List Row)
    (h1 : (hD && rows0.any fun r =>
        outOfPandasRange (julian_to_date r.discovery)) = false)
    (h2 : (hC && rows0.any fun r =>
        outOfPandasRange (julian_to_date r.cont)) = true) :
    preprocess_data
        { hasDiscovery := hD, hasCont := hC, hasFireSize := hF, hasState := hS,
          hasStateName := sn, hasDategregDiscovery := false,
          hasDategregCont := false, hasDuration := false, hasMonth := false,
          hasDay := false, hasDow := false, hasSeason := false, hasM2 := false,
          hasHectares := false, rows := rows0 } =
      { hasDiscovery := hD, hasCont := hC, hasFireSize := hF, hasState := hS,
        hasStateName := sn, hasDategregDiscovery := hD,
        hasDategregCont := true, hasDuration := false, hasMonth := false,
        hasDay := false, hasDow := false, hasSeason := false, hasM2 := false,
        hasHectares := false, rows := rows0.map (dateRow hD true) } := by
  unfold preprocess_data
  rw [step_dates_char, if_neg (by simp [h1]), if_pos h2]

/-- `preprocess_data` on a table whose derived columns are still absent, when
neither date conversion raises: the closed form of steps 2-4, including the
caught area exception. -/
lemma preprocess_char_ok (hD hC hF hS sn : Bool) (rows0 : List Row)
    (h1 : (hD && rows0.any fun r =>
        outOfPandasRange (julian_to_date r.discovery)) = false)
    (h2 : (hC && rows0.any fun r =>
        outOfPandasRange (julian_to_date r.cont)) = false) :
    preprocess_data
        { hasDiscovery := hD, hasCont := hC, hasFireSize := hF, hasState := hS,
          hasStateName := sn, hasDategregDiscovery := false,
          hasDategregCont := false, hasDuration := false, hasMonth := false,
          hasDay := false, hasDow := false, hasSeason := false, hasM2 := false,
          hasHectares := false, rows := rows0 } =
      { hasDiscovery := hD, hasCont := hC, hasFireSize := hF, hasState := hS,
        hasStateName := sn, hasDategregDiscovery := hD, hasDategregCont := hC,
        hasDuration := hD && hC, hasMonth := hD, hasDay := hD, hasDow := hD,
        hasSeason := hD,
        hasM2 := hF && !(rows0.any fun r => badSize r.fireSize),
        hasHectares := hF && !(rows0.any fun r => badSize r.fireSize),
        rows := rows0.map fun r =>
          if hF && !(rows0.any fun r => badSize r.fireSize) then
            areaRowOk (postRow hD hC r)
          else postRow hD hC r } := by
  unfold preprocess_data
  rw [step_dates_char, if_neg (by simp [h1]), if_neg (by simp [h2])]
  by_cases hA : rows0.any (fun r => badSize r.fireSize) = true
  · -- area step raises (when attempted): the partially mutated frame returns
    cases hD <;> cases hC <;> cases hF <;>
      simp [step_duration, step_temporal, step_area, hA, areaRowsE_err,
        List.any_map, Function.comp_def, dategregDiscoveryRow_fireSize,
        dategregContRow_fireSize, durationRow_fireSize, temporalRow_fireSize,
        List.map_map, postRow, dateRow, map_dateRow_ff]
  · have hA' : (rows0.any fun r => badSize r.fireSize) = false := by
      simpa using hA
    cases hD <;> cases hC <;> cases hF <;>
      simp [step_duration, step_temporal, step_area, hA', areaRowsE_ok,
        List.mem_map, List.any_map, Function.comp_def,
        dategregDiscoveryRow_fireSize, dategregContRow_fireSize,
        durationRow_fireSize, temporalRow_fireSize, List.map_map, postRow,
        dateRow, map_dateRow_ff]

/-- The conditional state-name stage of the orchestrator, in closed form. -/
lemma stage_state (hD hC hF hS : Bool) (rows : List RawRow) (m : MappingList) :
    (if hS && !m.isEmpty then
        addStateName (RawTable.toTable ⟨hD, hC, hF, hS, rows⟩) m
      else RawTable.toTable ⟨hD, hC, hF, hS, rows⟩) =
      { hasDiscovery := hD, hasCont := hC, hasFireSize := hF, hasState := hS,
        hasStateName := hS && !m.isEmpty, hasDategregDiscovery := false,
        hasDategregCont := false, hasDuration := false, hasMonth := false,
        hasDay := false, hasDow := false, hasSeason := false, hasM2 := false,
        hasHectares := false,
        rows := rows.map fun r => preRow hS m (toRow r) } := by
  by_cases hsn : (hS && !m.isEmpty) = true <;>
    simp [addStateName, RawTable.toTable, preRow, hsn, List.map_map,
      Function.comp_def]

/-- Per-record assembly: the staged row functions compose to `enrichRow`. -/
lemma rowAssembly (hD hC hF hS : Bool) (m : MappingList) (ab : Bool)
    (r : RawRow) :
    (if hF && !ab then areaRowOk (postRow hD hC (preRow hS m (toRow r)))
      else postRow hD hC (preRow hS m (toRow r))) =
      enrichRow hD hC hF hS m (!ab) r := by
  cases hD <;> cases hC <;>
    by_cases hsn : (hS && !m.isEmpty) = true <;>
      by_cases har : (hF && !ab) = true <;>
        simp [preRow, postRow, toRow, enrichRow, hsn, har, areaRowOk,
          stateNameRow, dategregDiscoveryRow, dategregContRow, durationRow,
          temporalRow, calculate_duration, clean_duration]

/-- The orchestrator agrees with its closed form on every successful load. -/
lemma pipeline_eq (raw : RawTable) (ref : Except String MappingList) :
    load_and_preprocess_data (.ok raw) ref =
      (pipelineSpec raw (load_state_names ref), load_state_names ref,
        invertMapping (load_state_names ref)) := by
  obtain ⟨hD, hC, hF, hS, rows⟩ := raw
  simp only [load_and_preprocess_data]
  generalize load_state_names ref = m
  rw [stage_state]
  have hdisc := any_discovery_preRows hS m rows
  have hcont := any_cont_preRows hS m rows
  unfold pipelineSpec
  simp only [discoveryDatesRaise, contDatesRaise]
  by_cases hRD :
      (hD && rows.any fun r => outOfPandasRange (julian_to_date r.discovery))
        = true
  · rw [preprocess_char_discRaise _ _ _ _ _ _ (by rw [hdisc]; exact hRD),
      if_pos hRD]
    congr 1
    congr 1
    simp only [List.map_map]
    exact congrArg (fun f => List.map f rows) (funext fun r => rfl)
  · by_cases hRC :
        (hC && rows.any fun r => outOfPandasRange (julian_to_date r.cont))
          = true
    · rw [preprocess_char_contRaise _ _ _ _ _ _
        (by rw [hdisc]; simpa using hRD) (by rw [hcont]; exact hRC),
        if_neg hRD, if_pos hRC]
      congr 1
      congr 1
      simp only [List.map_map]
      exact congrArg (fun f => List.map f rows) (funext fun r => rfl)
    · rw [preprocess_char_ok _ _ _ _ _ _
        (by rw [hdisc]; simpa using hRD) (by rw [hcont]; simpa using hRC),
        if_neg hRD, if_neg hRC]
      have hany := any_badSize_preRows hS m rows
      simp only [areaOK, hany, List.map_map, Function.comp_def]
      congr 1
      congr 1
      exact congrArg (fun f => List.map f rows)
        (funext fun r => rowAssembly hD hC hF hS m _ r)

/-! ### Auxiliary facts used by the claim theorems -/

lemma monthOfDay_bounds (z : ℤ) : 1 ≤ monthOfDay z ∧ monthOfDay z ≤ 12 := by
  unfold monthOfDay civilFromDays
  dsimp only
  split <;> omega

lemma seasonMap_isSome (k : ℕ) (h1 : 1 ≤ k) (h2 : k ≤ 12) :
    (seasonMap k).isSome = true := by
  interval_cases k <;> decide

lemma clean_duration_bounds (o : Option ℤ) (n : ℤ)
    (h : clean_duration o = some n) : 0 ≤ n ∧ n ≤ 365 := by
  cases o with
  | none => simp [clean_duration] at h
  | some k =>
      simp only [clean_duration] at h
      split_ifs at h with h1 h2
      all_goals simp_all

lemma calculate_duration_none_right (o : Option ℤ) :
    calculate_duration o none = none := by
  cases o <;> rfl

lemma any_badSize_dropCont (l : List RawRow) :
    ((l.map fun r => { r with cont := none }).any fun r => badSize r.fireSize) =
      l.any fun r => badSize r.fireSize := by
  induction l with
  | nil => rfl
  | cons r rs ih => simp [List.any_cons, ih]

lemma areaOK_dropCont (raw : RawTable) :
    areaOK (dropContColumn raw) = areaOK raw := by
  unfold areaOK dropContColumn
  simp [List.any_map, Function.comp_def]

lemma enrichRow_noCont_duration (hD hF hS : Bool) (m : MappingList)
    (aOK : Bool) (x : RawRow) :
    (enrichRow hD false hF hS m aOK x).durationDays = none := by
  unfold enrichRow
  dsimp only
  simp [calculate_duration_none_right, clean_duration]

lemma enrichRow_season_isSome (hD hC hF hS : Bool) (m : MappingList)
    (aOK : Bool) (x : RawRow) :
    (enrichRow hD hC hF hS m aOK x).season.isSome =
      (enrichRow hD hC hF hS m aOK x).month.isSome := by
  unfold enrichRow
  dsimp only
  generalize (if hD then julian_to_date x.discovery else none) = dg
  cases dg with
  | none => rfl
  | some z =>
      have hb := monthOfDay_bounds z
      simpa using seasonMap_isSome (monthOfDay z) hb.1 hb.2

lemma pipelineSpec_hasStateName (raw : RawTable) (m : MappingList) :
    (pipelineSpec raw m).hasStateName = (raw.hasState && !m.isEmpty) := by
  unfold pipelineSpec
  split_ifs <;> rfl

lemma pipelineSpec_rows_length (raw : RawTable) (m : MappingList) :
    (pipelineSpec raw m).rows.length = raw.rows.length := by
  unfold pipelineSpec
  split_ifs <;> simp

/-- The resolved state name of the `i`-th output record, in every regime. -/
lemma pipelineSpec_row_stateName (raw : RawTable) (m : MappingList) (i : ℕ) :
    ((pipelineSpec raw m).rows[i]?).map (fun er => er.stateName) =
      (raw.rows[i]?).map fun x =>
        if raw.hasState && !m.isEmpty then
          match x.state with
          | some c => some ((dlookup m c).getD c)
          | none => none
        else none := by
  unfold pipelineSpec
  split_ifs <;>
    · simp only [List.getElem?_map]
      cases raw.rows[i]? with
      | none => rfl
      | some x =>
          simp_all [enrichRow, preRow_eq, dategregDiscoveryRow, dateRow_eq,
            toRow]

/-- End-to-end validation of the embedding on the specification's worked
scenario: a row with `FIRE_SIZE = 100` acres, discovery Julian day 2459015.5
(2020-06-15), containment Julian day 2459020.5 (2020-06-20) and state `"CA"`
under the reference `{"CA": "California"}` is enriched to state name
`California`, epoch days 18428 and 18433, duration 5, month 6, season
`Summer`, 404 686 m² and 40.4686 ha. -/
theorem pipeline_scenario_2020 :
    (load_and_preprocess_data
        (.ok ⟨true, true, true, true,
          [⟨some (.num 2459015.5), some (.num 2459020.5), some (.num 100),
            some "CA"⟩]⟩)
        (.ok [("CA", "California")])).1.rows.map
      (fun er => (er.stateName, er.dategregDiscovery, er.dategregCont,
        er.durationDays, er.month, er.season, er.fireSizeM2,
        er.fireSizeHectares)) =
      [(some "California", some 18428, some 18433, some 5, some 6,
        some "Summer", some 404686, some (40.4686 : ℚ))] := by
  have h1 : julian_to_date (some (.num 2459015.5)) = some 18428 := by
    unfold julian_to_date minEpochDay maxEpochDay
    norm_num
  have h2 : julian_to_date (some (.num 2459020.5)) = some 18433 := by
    unfold julian_to_date minEpochDay maxEpochDay
    norm_num
  have hm : monthOfDay 18428 = 6 := by decide
  rw [pipeline_eq]
  simp [pipelineSpec, areaOK, badSize, load_state_names, enrichRow, h1, h2, hm,
    discoveryDatesRaise, contDatesRaise, outOfPandasRange, minPandasDay,
    maxPandasDay, calculate_duration, clean_duration, dlookup, seasonMap,
    convertOpt]
  norm_num

/-! ### Claim theorems -/

/-- C3: for a record with both decoded dates present, the sanitised duration
is absent when `c < d`, absent when `c - d > 365`, and exactly `c - d`
otherwise; consequently every non-null `duration_days` the pipeline ever
stores lies in `[0, 365]`. -/
theorem C3_duration_sanitation (d c : ℤ) :
    (c < d → clean_duration (calculate_duration (some d) (some c)) = none) ∧
    (365 < c - d →
      clean_duration (calculate_duration (some d) (some c)) = none) ∧
    (0 ≤ c - d → c - d ≤ 365 →
      clean_duration (calculate_duration (some d) (some c)) = some (c - d)) ∧
    (∀ n : ℤ, clean_duration (calculate_duration (some d) (some c)) = some n →
      0 ≤ n ∧ n ≤ 365) ∧
    (∀ raw : RawTable, ∀ ref : Except String MappingList,
      ∀ er ∈ (load_and_preprocess_data (.ok raw) ref).1.rows,
        ∀ n : ℤ, er.durationDays = some n → 0 ≤ n ∧ n ≤ 365) := by
  refine ⟨?_, ?_, ?_, ?_, ?_⟩
  · intro h
    simp only [calculate_duration, clean_duration]
    rw [if_pos (by omega)]
  · intro h
    simp only [calculate_duration, clean_duration]
    rw [if_neg (by omega), if_pos (by omega)]
  · intro h1 h2
    simp only [calculate_duration, clean_duration]
    rw [if_neg (by omega), if_neg (by omega)]
  · intro n hn
    exact clean_duration_bounds _ n hn
  · intro raw ref er her n hn
    rw [pipeline_eq] at her
    unfold pipelineSpec at her
    split_ifs at her <;> simp only [List.mem_map] at her <;>
      obtain ⟨x, hx, rfl⟩ := her
    · simp [dategregDiscoveryRow, preRow_eq, toRow] at hn
    · simp [dateRow_eq, preRow_eq, toRow] at hn
    · exact clean_duration_bounds _ n hn

/-- C3 witness: concrete instances of the three duration regimes. -/
theorem C3_duration_sanitation_witness :
    clean_duration (calculate_duration (some 0) (some 5)) = some 5 ∧
    clean_duration (calculate_duration (some 10) (some 5)) = none ∧
    clean_duration (calculate_duration (some 0) (some 400)) = none := by
  refine ⟨?_, ?_, ?_⟩
  · have h := (C3_duration_sanitation 0 5).2.2.1 (by norm_num) (by norm_num)
    simpa using h
  · exact (C3_duration_sanitation 10 5).1 (by norm_num)
  · exact (C3_duration_sanitation 0 400).2.1 (by norm_num)

/-- C5: the adaptive formatter picks exactly one tier by magnitude —
`≥ 10⁶` m² renders as km² with 2 decimals, `[10⁴, 10⁶)` as ha with
1 decimal, `< 10⁴` as thousands-grouped m² with 0 decimals; the boundaries
10 000 and 1 000 000 land in "ha" and "km²" respectively; a missing input
yields the fixed `"N/A"` sentinel. -/
theorem C5_format_area_tiers (v : ℚ) :
    format_area none = AreaDisplay.na ∧
    (v ≥ 1000000 → format_area (some v) = .disp (v / 1000000) 2 false "km²") ∧
    (10000 ≤ v → v < 1000000 →
      format_area (some v) = .disp (v / 10000) 1 false "ha") ∧
    (v < 10000 → format_area (some v) = .disp v 0 true "m²") ∧
    format_area (some 10000) = .disp 1 1 false "ha" ∧
    format_area (some 1000000) = .disp 1 2 false "km²" := by
  refine ⟨rfl, ?_, ?_, ?_, ?_, ?_⟩
  · intro h
    simp only [format_area]
    rw [if_pos h]
  · intro h1 h2
    simp only [format_area]
    rw [if_neg (by simpa using h2), if_pos (by exact h1)]
  · intro h
    simp only [format_area]
    rw [if_neg (by simp; linarith), if_neg (by simpa using h)]
  · simp only [format_area]
    rw [if_neg (by norm_num), if_pos (by norm_num)]
    norm_num
  · simp only [format_area]
    rw [if_pos (by norm_num)]
    norm_num

/-- C5 witness: one representative per tier, plus the missing-input sentinel. -/
theorem C5_format_area_witness :
    format_area (some 5000000) = .disp (5000000 / 1000000 : ℚ) 2 false "km²" ∧
    format_area (some 500000) = .disp (500000 / 10000 : ℚ) 1 false "ha" ∧
    format_area (some 500) = .disp 500 0 true "m²" ∧
    format_area none = AreaDisplay.na :=
  ⟨(C5_format_area_tiers 5000000).2.1 (by norm_num),
   (C5_format_area_tiers 500000).2.2.1 (by norm_num) (by norm_num),
   (C5_format_area_tiers 500).2.2.2.1 (by norm_num),
   (C5_format_area_tiers 0).1⟩

/-- C7: a present acre value `a` converts to exactly `a * 4046.86` square
meters, the hectare column is exactly that value divided by 10 000, and both
derived areas are absent when the acre cell is absent. -/
theorem C7_area_conversion (a : ℚ) (r : Row) :
    convert_acres_to_m2 (some (.num a)) = .ok (some (a * 4046.86)) ∧
    convert_acres_to_m2 none = .ok none ∧
    (r.fireSize = some (.num a) →
      rowArea r = .ok { r with fireSizeM2 := some (a * 4046.86),
                               fireSizeHectares := some (a * 4046.86 / 10000) }) ∧
    (r.fireSize = none →
      rowArea r = .ok { r with fireSizeM2 := none,
                               fireSizeHectares := none }) := by
  refine ⟨rfl, rfl, ?_, ?_⟩
  · intro h
    unfold rowArea
    rw [h]
    simp [convert_acres_to_m2]
  · intro h
    unfold rowArea
    rw [h]
    simp [convert_acres_to_m2]

/-- C7 witness: the spec's scenario value, 100 acres. -/
theorem C7_area_conversion_witness :
    rowArea (toRow ⟨none, none, some (.num 100), none⟩) =
      .ok { toRow ⟨none, none, some (.num 100), none⟩ with
            fireSizeM2 := some (100 * 4046.86),
            fireSizeHectares := some (100 * 4046.86 / 10000) } :=
  (C7_area_conversion 100 (toRow ⟨none, none, some (.num 100), none⟩)).2.2.1 rfl

/-- C10: `format_area_value` maps a missing area to the number `0`, the same
value it returns for an area of exactly zero square meters — missing and zero
are indistinguishable in its output. -/
theorem C10_missing_area_formats_as_zero :
    format_area_value none = 0 ∧ format_area_value (some 0) = 0 ∧
    format_area_value none = format_area_value (some 0) := by
  refine ⟨rfl, ?_, ?_⟩ <;> norm_num [format_area_value]

/-- C8: the pipeline is a pure function of its two source tables — two
invocations on unchanged inputs return identical enriched record sets (same
row count, same rows) and identical mappings. -/
theorem C8_pipeline_idempotent (src1 src2 : Except String RawTable)
    (ref1 ref2 : Except String MappingList)
    (hs : src1 = src2) (hr : ref1 = ref2) :
    load_and_preprocess_data src1 ref1 = load_and_preprocess_data src2 ref2 ∧
    (load_and_preprocess_data src1 ref1).1.rows.length =
      (load_and_preprocess_data src2 ref2).1.rows.length ∧
    (load_and_preprocess_data src1 ref1).1.rows =
      (load_and_preprocess_data src2 ref2).1.rows ∧
    (load_and_preprocess_data src1 ref1).2.1 =
      (load_and_preprocess_data src2 ref2).2.1 ∧
    (load_and_preprocess_data src1 ref1).2.2 =
      (load_and_preprocess_data src2 ref2).2.2 := by
  subst hs
  subst hr
  exact ⟨rfl, rfl, rfl, rfl, rfl⟩

/-- C8 witness: two invocations on one concrete input pair. -/
theorem C8_pipeline_idempotent_witness :
    load_and_preprocess_data
        (.ok ⟨true, true, true, true, [⟨none, none, none, some "CA"⟩]⟩)
        (.ok [("CA", "California")]) =
      load_and_preprocess_data
        (.ok ⟨true, true, true, true, [⟨none, none, none, some "CA"⟩]⟩)
        (.ok [("CA", "California")]) :=
  (C8_pipeline_idempotent _ _ _ _ rfl rfl).1

/-- C1 counterexample: on a one-row input whose `FIRE_SIZE` cell is a
non-numeric string, the area step raises `TypeError`, yet
`load_and_preprocess_data` does *not* return the empty triple: it returns a
partially-built record set — the temporal derivations were applied
(`hasMonth = true`) while the area derivation was not (`hasM2 = false`,
despite `FIRE_SIZE` being present) — together with non-empty mappings,
because `preprocess_data`'s own `except` absorbs the failure first. -/
theorem C1_counterexample :
    convert_acres_to_m2 (some (.str "abc")) = .error areaTypeError ∧
    load_and_preprocess_data
        (.ok ⟨true, true, true, true, [⟨none, none, some (.str "abc"), some "CA"⟩]⟩)
        (.ok [("CA", "California")]) ≠ (Table.empty, [], []) ∧
    (load_and_preprocess_data
        (.ok ⟨true, true, true, true, [⟨none, none, some (.str "abc"), some "CA"⟩]⟩)
        (.ok [("CA", "California")])).1.hasMonth = true ∧
    (load_and_preprocess_data
        (.ok ⟨true, true, true, true, [⟨none, none, some (.str "abc"), some "CA"⟩]⟩)
        (.ok [("CA", "California")])).1.hasFireSize = true ∧
    (load_and_preprocess_data
        (.ok ⟨true, true, true, true, [⟨none, none, some (.str "abc"), some "CA"⟩]⟩)
        (.ok [("CA", "California")])).1.hasM2 = false ∧
    (load_and_preprocess_data
        (.ok ⟨true, true, true, true, [⟨none, none, some (.str "abc"), some "CA"⟩]⟩)
        (.ok [("CA", "California")])).2.1 = [("CA", "California")] := by
  refine ⟨rfl, by decide, rfl, rfl, rfl, rfl⟩

/-- C1 amended: only a failure to read the primary source yields the empty
record set with empty mappings.  A failure *inside* the derivation steps —
a date decoding outside pandas' `Timestamp` range raising in step 1, or a
non-numeric fire size raising in step 4 — is caught by `preprocess_data`
itself, which returns one record per raw record with every derivation
completed before the raise still applied (the state name always survives,
and on a step-1 raise the later derived columns are all absent), together
with the computed mappings: a partially built record set can be returned. -/
theorem C1_failure_containment (src : Except String RawTable)
    (ref : Except String MappingList) :
    (∀ e, src = .error e →
      load_and_preprocess_data src ref = (Table.empty, [], [])) ∧
    (∀ raw, src = .ok raw →
      (load_and_preprocess_data src ref).1.rows.length = raw.rows.length ∧
      (load_and_preprocess_data src ref).2.1 = load_state_names ref ∧
      (load_and_preprocess_data src ref).1.hasStateName =
        (raw.hasState && !(load_state_names ref).isEmpty) ∧
      (datesRaise raw = false →
        (load_and_preprocess_data src ref).1.hasMonth = raw.hasDiscovery ∧
        (load_and_preprocess_data src ref).1.hasM2 =
          (raw.hasFireSize && areaOK raw)) ∧
      (datesRaise raw = true →
        (load_and_preprocess_data src ref).1.hasMonth = false ∧
        (load_and_preprocess_data src ref).1.hasM2 = false)) := by
  constructor
  · intro e he
    subst he
    rfl
  · intro raw hr
    subst hr
    rw [pipeline_eq]
    refine ⟨pipelineSpec_rows_length raw _, rfl,
      pipelineSpec_hasStateName raw _, ?_, ?_⟩
    · intro h
      have h12 : discoveryDatesRaise raw = false ∧ contDatesRaise raw = false := by
        simpa [datesRaise] using h
      unfold pipelineSpec
      rw [if_neg (by simp [h12.1]), if_neg (by simp [h12.2])]
      exact ⟨rfl, rfl⟩
    · intro h
      unfold pipelineSpec
      by_cases h1 : discoveryDatesRaise raw = true
      · rw [if_pos h1]
        exact ⟨rfl, rfl⟩
      · have h2 : contDatesRaise raw = true := by
          simpa [datesRaise, h1] using h
        rw [if_neg h1, if_pos h2]
        exact ⟨rfl, rfl⟩

/-- C1 witness: a failed read yields the empty triple; a successful read of an
empty frame yields zero rows with the mapping passed through; an input whose
discovery date decodes beyond pandas' range keeps its row but gets no month
column. -/
theorem C1_failure_containment_witness :
    load_and_preprocess_data (.error "read failure") (.ok []) =
      (Table.empty, [], []) ∧
    (load_and_preprocess_data (.ok ⟨false, false, false, false, []⟩)
        (.ok [])).1.rows.length = 0 ∧
    (load_and_preprocess_data
        (.ok ⟨true, false, false, false,
          [⟨some (.num 2590587.5), none, none, none⟩]⟩)
        (.ok [])).1.hasMonth = false ∧
    (load_and_preprocess_data
        (.ok ⟨true, false, false, false,
          [⟨some (.num 2590587.5), none, none, none⟩]⟩)
        (.ok [])).1.rows.length = 1 := by
  have hjd : julian_to_date (some (.num 2590587.5)) = some 150000 := by
    unfold julian_to_date minEpochDay maxEpochDay
    norm_num
  have hdr : datesRaise
      ⟨true, false, false, false,
        [⟨some (.num 2590587.5), none, none, none⟩]⟩ = true := by
    simp [datesRaise, discoveryDatesRaise, contDatesRaise, hjd,
      outOfPandasRange, minPandasDay, maxPandasDay]
  refine ⟨(C1_failure_containment (.error "read failure") (.ok [])).1
      "read failure" rfl, ?_, ?_, ?_⟩
  · have h := ((C1_failure_containment
      (.ok ⟨false, false, false, false, []⟩) (.ok [])).2 _ rfl).1
    simpa using h
  · exact (((C1_failure_containment
      (.ok ⟨true, false, false, false,
        [⟨some (.num 2590587.5), none, none, none⟩]⟩)
      (.ok [])).2 _ rfl).2.2.2.2 hdr).1
  · have h := ((C1_failure_containment
      (.ok ⟨true, false, false, false,
        [⟨some (.num 2590587.5), none, none, none⟩]⟩)
      (.ok [])).2 _ rfl).1
    simpa using h

/-- C2 counterexample: with the reference load failed (empty mapping) and a
present raw state code `"CA"`, the resolved state name is *absent* — the
`STATE_NAME` column is never created because of the `and code_to_name`
truthiness guard — rather than equal to the raw code as the claim states. -/
theorem C2_counterexample :
    load_state_names (.error "read failure") = [] ∧
    (load_and_preprocess_data
        (.ok ⟨false, false, false, true, [⟨none, none, none, some "CA"⟩]⟩)
        (.error "read failure")).1.rows.map (fun er => er.stateName) =
      [none] ∧
    (load_and_preprocess_data
        (.ok ⟨false, false, false, true, [⟨none, none, none, some "CA"⟩]⟩)
        (.error "read failure")).1.hasStateName = false ∧
    [(none : Option String)] ≠ [some "CA"] := by
  refine ⟨rfl, by decide, rfl, by decide⟩

/-- C2 amended: when the mapping is *non-empty* and `STATE` exists, each
record with a present code resolves to the mapped name, falling back to the
raw code itself when the mapping lacks that code (never null); but when the
mapping is empty the `STATE_NAME` field is not added at all — every record's
state name is absent, not the raw code. -/
theorem C2_state_name_resolution (raw : RawTable)
    (ref : Except String MappingList) (i : ℕ) (x : RawRow) (c : String) :
    (load_state_names ref ≠ [] → raw.hasState = true →
      raw.rows[i]? = some x → x.state = some c →
      ((load_and_preprocess_data (.ok raw) ref).1.rows[i]?).map
          (fun er => er.stateName) =
        some (some ((dlookup (load_state_names ref) c).getD c))) ∧
    (load_state_names ref = [] →
      (load_and_preprocess_data (.ok raw) ref).1.hasStateName = false ∧
      ∀ er ∈ (load_and_preprocess_data (.ok raw) ref).1.rows,
        er.stateName = none) := by
  constructor
  · intro hm hS hi hc
    rw [pipeline_eq, pipelineSpec_row_stateName, hi]
    simp only [Option.map_some']
    cases hml : load_state_names ref with
    | nil => exact absurd hml hm
    | cons p l => simp [hS, hc]
  · intro hm
    rw [pipeline_eq]
    constructor
    · rw [pipelineSpec_hasStateName, hm]
      simp
    · intro er her
      obtain ⟨j, hj⟩ := List.getElem?_of_mem her
      have h := pipelineSpec_row_stateName raw (load_state_names ref) j
      rw [hj, hm] at h
      cases hx : raw.rows[j]? with
      | none =>
          rw [hx] at h
          simp at h
      | some x =>
          rw [hx] at h
          simpa using h

/-- C2 witness: an unmapped code falls back to itself under a non-empty
mapping; a failed reference load leaves the state-name column absent. -/
theorem C2_state_name_resolution_witness :
    ((load_and_preprocess_data
        (.ok ⟨false, false, false, true, [⟨none, none, none, some "ZZ"⟩]⟩)
        (.ok [("CA", "California")])).1.rows[0]?).map
          (fun er => er.stateName) =
      some (some ((dlookup [("CA", "California")] "ZZ").getD "ZZ")) ∧
    (load_and_preprocess_data
        (.ok ⟨false, false, false, true, [⟨none, none, none, some "CA"⟩]⟩)
        (.error "read failure")).1.hasStateName = false := by
  constructor
  · exact (C2_state_name_resolution
      ⟨false, false, false, true, [⟨none, none, none, some "ZZ"⟩]⟩
      (.ok [("CA", "California")]) 0 ⟨none, none, none, some "ZZ"⟩ "ZZ").1
      (by decide) rfl (by decide) rfl
  · exact ((C2_state_name_resolution
      ⟨false, false, false, true, [⟨none, none, none, some "CA"⟩]⟩
      (.error "read failure") 0 ⟨none, none, none, none⟩ "CA").2 rfl).1

/-- C6: season classification is the fixed total deterministic lookup
{12,1,2}→Winter, {3,4,5}→Spring, {6,7,8}→Summer, {9,10,11}→Fall, producing
exactly one of the four labels on every month 1–12; and in every pipeline
output row the derived season is present exactly when the derived month is. -/
theorem C6_season_classification (mth : ℕ) (raw : RawTable)
    (ref : Except String MappingList) :
    ((mth = 12 ∨ mth = 1 ∨ mth = 2) → seasonMap mth = some "Winter") ∧
    ((mth = 3 ∨ mth = 4 ∨ mth = 5) → seasonMap mth = some "Spring") ∧
    ((mth = 6 ∨ mth = 7 ∨ mth = 8) → seasonMap mth = some "Summer") ∧
    ((mth = 9 ∨ mth = 10 ∨ mth = 11) → seasonMap mth = some "Fall") ∧
    (1 ≤ mth → mth ≤ 12 →
      seasonMap mth = some "Winter" ∨ seasonMap mth = some "Spring" ∨
        seasonMap mth = some "Summer" ∨ seasonMap mth = some "Fall") ∧
    (∀ er ∈ (load_and_preprocess_data (.ok raw) ref).1.rows,
      er.season.isSome = er.month.isSome) := by
  refine ⟨?_, ?_, ?_, ?_, ?_, ?_⟩
  · rintro (rfl | rfl | rfl) <;> rfl
  · rintro (rfl | rfl | rfl) <;> rfl
  · rintro (rfl | rfl | rfl) <;> rfl
  · rintro (rfl | rfl | rfl) <;> rfl
  · intro h1 h2
    interval_cases mth <;> simp [seasonMap]
  · intro er her
    rw [pipeline_eq] at her
    unfold pipelineSpec at her
    split_ifs at her <;> simp only [List.mem_map] at her <;>
      obtain ⟨x, hx, rfl⟩ := her
    · simp [dategregDiscoveryRow, preRow_eq, toRow]
    · simp [dateRow_eq, preRow_eq, toRow]
    · exact enrichRow_season_isSome _ _ _ _ _ _ x

/-- C6 witness: representative months of each season, one month in range, and
the absence linkage on a concrete pipeline row. -/
theorem C6_season_classification_witness :
    seasonMap 12 = some "Winter" ∧ seasonMap 4 = some "Spring" ∧
    seasonMap 7 = some "Summer" ∧ seasonMap 10 = some "Fall" ∧
    (seasonMap 6 = some "Winter" ∨ seasonMap 6 = some "Spring" ∨
      seasonMap 6 = some "Summer" ∨ seasonMap 6 = some "Fall") ∧
    (enrichRow true false false false [] true ⟨none, none, none, none⟩).season.isSome =
      (enrichRow true false false false [] true ⟨none, none, none, none⟩).month.isSome := by
  have base := C6_season_classification 12
    ⟨true, false, false, false, [⟨none, none, none, none⟩]⟩ (.ok [])
  refine ⟨base.1 (Or.inl rfl),
    (C6_season_classification 4 ⟨false, false, false, false, []⟩ (.ok [])).2.1
      (Or.inr (Or.inl rfl)),
    (C6_season_classification 7 ⟨false, false, false, false, []⟩ (.ok [])).2.2.1
      (Or.inr (Or.inl rfl)),
    (C6_season_classification 10 ⟨false, false, false, false, []⟩
      (.ok [])).2.2.2.1 (Or.inr (Or.inl rfl)),
    (C6_season_classification 6 ⟨false, false, false, false, []⟩
      (.ok [])).2.2.2.2.1 (by norm_num) (by norm_num),
    base.2.2.2.2.2 (enrichRow true false false false [] true
      ⟨none, none, none, none⟩) ?_⟩
  rw [pipeline_eq]
  simp [pipelineSpec, areaOK, load_state_names, badSize, discoveryDatesRaise,
    contDatesRaise, outOfPandasRange, julian_to_date]

/-- C9 counterexample: on `contOutOfRangeRaw` the full run aborts in step 1 —
the containment date decodes to epoch day 150000, beyond pandas' `Timestamp`
range, so `pd.to_datetime` raises and month/season/area are never derived —
while the run with the containment column removed derives them all
(`month = 6`, `area_m2 = 100 × 4046.86`).  Removing the containment-date
column therefore *does* change derived fields that do not depend on it,
refuting the claim. -/
theorem C9_counterexample :
    julian_to_date (some (.num 2590587.5)) = some 150000 ∧
    outOfPandasRange (some 150000) = true ∧
    (load_and_preprocess_data (.ok contOutOfRangeRaw) (.ok [])).1.hasMonth =
      false ∧
    (load_and_preprocess_data (.ok contOutOfRangeRaw) (.ok [])).1.rows.map
        (fun er => er.month) = [none] ∧
    (load_and_preprocess_data (.ok contOutOfRangeRaw) (.ok [])).1.rows.map
        (fun er => er.fireSizeM2) = [none] ∧
    (load_and_preprocess_data (.ok (dropContColumn contOutOfRangeRaw))
        (.ok [])).1.hasMonth = true ∧
    (load_and_preprocess_data (.ok (dropContColumn contOutOfRangeRaw))
        (.ok [])).1.rows.map (fun er => er.month) = [some 6] ∧
    (load_and_preprocess_data (.ok (dropContColumn contOutOfRangeRaw))
        (.ok [])).1.rows.map (fun er => er.fireSizeM2) =
      [some (100 * 4046.86)] ∧
    (load_and_preprocess_data (.ok contOutOfRangeRaw) (.ok [])).1.rows.map
        (fun er => er.month) ≠
      (load_and_preprocess_data (.ok (dropContColumn contOutOfRangeRaw))
        (.ok [])).1.rows.map (fun er => er.month) := by
  have h1 : julian_to_date (some (.num 2459015.5)) = some 18428 := by
    unfold julian_to_date minEpochDay maxEpochDay
    norm_num
  have h2 : julian_to_date (some (.num 2590587.5)) = some 150000 := by
    unfold julian_to_date minEpochDay maxEpochDay
    norm_num
  have hm6 : monthOfDay 18428 = 6 := by decide
  have hRD : discoveryDatesRaise contOutOfRangeRaw = false := by
    simp [discoveryDatesRaise, contOutOfRangeRaw, h1, outOfPandasRange,
      minPandasDay, maxPandasDay]
  have hRC : contDatesRaise contOutOfRangeRaw = true := by
    simp [contDatesRaise, contOutOfRangeRaw, h2, outOfPandasRange,
      minPandasDay, maxPandasDay]
  have hRDd : discoveryDatesRaise (dropContColumn contOutOfRangeRaw)
      = false := by
    simp [discoveryDatesRaise, dropContColumn, contOutOfRangeRaw, h1,
      outOfPandasRange, minPandasDay, maxPandasDay]
  have hRCd : contDatesRaise (dropContColumn contOutOfRangeRaw) = false := by
    simp [contDatesRaise, dropContColumn]
  simp only [pipeline_eq]
  unfold pipelineSpec
  rw [if_neg (by simp [hRD]), if_pos hRC, if_neg (by simp [hRDd]),
    if_neg (by simp [hRCd])]
  refine ⟨h2, by decide, rfl, ?_, ?_, ?_, ?_, ?_, ?_⟩
  · simp [contOutOfRangeRaw, dateRow_eq, preRow_eq, toRow]
  · simp [contOutOfRangeRaw, dateRow_eq, preRow_eq, toRow]
  · simp [dropContColumn, contOutOfRangeRaw, areaOK, badSize]
  · simp [dropContColumn, contOutOfRangeRaw, areaOK, badSize, enrichRow, h1,
      hm6]
  · simp [dropContColumn, contOutOfRangeRaw, areaOK, badSize, enrichRow,
      convertOpt]
  · simp [dropContColumn, contOutOfRangeRaw, areaOK, badSize, enrichRow, h1,
      hm6, dateRow_eq, preRow_eq, toRow]

/-- C9 amended: *provided no present containment date decodes outside pandas'
`Timestamp` range* (so the full run's `CONT_DATE` conversion does not raise),
removing the containment-date column makes `duration_days` uniformly absent
(the duration column is never created) without affecting the fields that do
not depend on it — month, day, day-of-week, season, both area conversions and
the resolved state name are identical, row for row, to a run on the full
input, and the row count agrees.  Without that proviso an out-of-range
containment date aborts step 1 of the full run, leaving those "unrelated"
fields underived there while the column-dropped run derives them. -/
theorem C9_missing_cont_column (raw : RawTable)
    (ref : Except String MappingList)
    (hcont : contDatesRaise raw = false) :
    ((load_and_preprocess_data (.ok (dropContColumn raw)) ref).1.rows.all
        fun er => er.durationDays == none) = true ∧
    (load_and_preprocess_data (.ok (dropContColumn raw)) ref).1.hasDuration =
      false ∧
    (load_and_preprocess_data (.ok (dropContColumn raw)) ref).1.rows.map
        (fun er => (er.month, er.day, er.dayOfWeek, er.season)) =
      (load_and_preprocess_data (.ok raw) ref).1.rows.map
        (fun er => (er.month, er.day, er.dayOfWeek, er.season)) ∧
    (load_and_preprocess_data (.ok (dropContColumn raw)) ref).1.rows.map
        (fun er => (er.fireSizeM2, er.fireSizeHectares, er.stateName)) =
      (load_and_preprocess_data (.ok raw) ref).1.rows.map
        (fun er => (er.fireSizeM2, er.fireSizeHectares, er.stateName)) ∧
    (load_and_preprocess_data (.ok (dropContColumn raw)) ref).1.rows.length =
      (load_and_preprocess_data (.ok raw) ref).1.rows.length := by
  obtain ⟨hD, hC, hF, hS, rows⟩ := raw
  simp only [pipeline_eq]
  generalize load_state_names ref = m
  have hcd : contDatesRaise (dropContColumn ⟨hD, hC, hF, hS, rows⟩)
      = false := by
    simp [contDatesRaise, dropContColumn]
  have hcf : contDatesRaise ⟨hD, hC, hF, hS, rows⟩ = false := hcont
  have hdd : discoveryDatesRaise (dropContColumn ⟨hD, hC, hF, hS, rows⟩) =
      discoveryDatesRaise ⟨hD, hC, hF, hS, rows⟩ := by
    unfold discoveryDatesRaise dropContColumn
    simp [List.any_map, Function.comp_def]
  unfold pipelineSpec
  rw [hdd]
  by_cases hRD : discoveryDatesRaise ⟨hD, hC, hF, hS, rows⟩ = true
  · -- the discovery conversion raises identically in both runs
    rw [if_pos hRD, if_pos hRD]
    refine ⟨?_, rfl, ?_, ?_, ?_⟩
    · simp only [List.all_eq_true, List.mem_map]
      rintro b ⟨x, hx, rfl⟩
      simp [dropContColumn, dategregDiscoveryRow, preRow_eq, toRow]
    · simp only [dropContColumn, List.map_map]
      refine congrArg (fun f => List.map f rows) (funext fun x => ?_)
      simp [Function.comp_def, dategregDiscoveryRow, preRow_eq, toRow]
    · simp only [dropContColumn, List.map_map]
      refine congrArg (fun f => List.map f rows) (funext fun x => ?_)
      simp [Function.comp_def, dategregDiscoveryRow, preRow_eq, toRow]
    · simp [dropContColumn]
  · -- neither run raises: both reach the full derivation
    rw [if_neg hRD, if_neg hRD, if_neg (by simp [hcd]),
      if_neg (by simp [hcf])]
    refine ⟨?_, ?_, ?_, ?_, ?_⟩
    · simp only [List.all_eq_true, List.mem_map]
      rintro b ⟨x, hx, rfl⟩
      simp [dropContColumn, enrichRow_noCont_duration]
    · simp [dropContColumn]
    · rw [areaOK_dropCont]
      simp only [dropContColumn, List.map_map]
      exact congrArg (fun f => List.map f rows) (funext fun x => rfl)
    · rw [areaOK_dropCont]
      simp only [dropContColumn, List.map_map]
      exact congrArg (fun f => List.map f rows) (funext fun x => rfl)
    · simp [dropContColumn]

/-- C9 witness: a one-row input whose containment cell is absent satisfies the
no-raise proviso; the column-dropped run has no duration column and the same
row count as the full run. -/
theorem C9_missing_cont_column_witness :
    (load_and_preprocess_data
        (.ok (dropContColumn
          ⟨true, true, true, false, [⟨none, none, some (.num 100), none⟩]⟩))
        (.ok [])).1.hasDuration = false ∧
    (load_and_preprocess_data
        (.ok (dropContColumn
          ⟨true, true, true, false, [⟨none, none, some (.num 100), none⟩]⟩))
        (.ok [])).1.rows.length =
      (load_and_preprocess_data
        (.ok ⟨true, true, true, false, [⟨none, none, some (.num 100), none⟩]⟩)
        (.ok [])).1.rows.length :=
  ⟨(C9_missing_cont_column
      ⟨true, true, true, false, [⟨none, none, some (.num 100), none⟩]⟩
      (.ok []) (by decide)).2.1,
   (C9_missing_cont_column
      ⟨true, true, true, false, [⟨none, none, some (.num 100), none⟩]⟩
      (.ok []) (by decide)).2.2.2.2⟩

end FireApp
